import Mathlib

/-!
Shallow embedding of the aio Result container (src/include/aio/result.hpp).

The C++ type result<T, E> is a tagged union: a union of T val and E err
plus a bool discriminant has_value, with the invariant that exactly one
payload is live. We embed the well-formed states as the sum type
aio.result. Exception-unsafe intermediate states (payload destroyed but
nothing reconstructed) that the cross-state assignment paths can leak are
embedded by aio.storage_state, which adds a dead marker recording the
discriminant of an object whose payload has been destroyed. Possibly
throwing payload constructions are embedded as functions into Except Unit;
guaranteed-non-failing relocations (move of an already constructed
temporary into storage) are embedded as non-failing, which is the
assumption the source makes. Payload-level same-state assignment
(val = other.val, err = other.err) is embedded as a non-failing function,
since the claims under study concern construction failures only.
-/

namespace aio

variable {T E U G T2 E2 : Type}

/-- The failure wrapper (class failure, result.hpp): a one-field carrier
that marks a value as the error payload. -/
structure failure (E : Type) where
  error : E
deriving DecidableEq

/-- The well-formed states of result<T, E>: exactly one live payload.
val embeds (has_value_ = true, val_ = v); err embeds
(has_value_ = false, err_ = e). -/
inductive result (T E : Type) where
  | val : T → result T E
  | err : E → result T E
deriving DecidableEq

/-- has_value() accessor: returns the discriminant. -/
def result.hasValue : result T E → Bool
  | .val _ => true
  | .err _ => false

/-- value() accessor: returns val_; reading it in the Error state is
undefined behaviour in the source, embedded as none. -/
def result.value? : result T E → Option T
  | .val v => some v
  | .err _ => none

/-- error() accessor: returns err_; reading it in the Value state is
undefined behaviour in the source, embedded as none. -/
def result.error? : result T E → Option E
  | .val _ => none
  | .err e => some e

/-- The value constructor result(U and& v): delegates to
Base(in_place, v), which constructs val_ from v and sets has_value_. -/
def result.ofValue (v : T) : result T E := .val v

/-- The failure constructor result(failure<E> f): delegates to
Base(failure<E>), which constructs err_ from f.error() and clears
has_value_. -/
def result.ofFailure (f : failure E) : result T E := .err f.error

/-- and_then(f): on a Value invokes f with the value and returns the
result of f unchanged; on an Error rebuilds result<U, E> from a failure
carrying the existing error and does not touch f. -/
def result.and_then (f : T → result U E) : result T E → result U E
  | .val v => f v
  | .err e => .err e

/-- or_else(f): on an Error invokes f with the error and returns the
result of f unchanged; on a Value rebuilds result<T, G> from the existing
value and does not touch f. -/
def result.or_else (f : E → result T G) : result T E → result T G
  | .val v => .val v
  | .err e => f e

/-- transform(f): on a Value wraps f applied to the value into a new
Value result; on an Error rebuilds result<U, E> from a failure carrying
the existing error. -/
def result.transform (f : T → U) : result T E → result U E
  | .val v => .val (f v)
  | .err e => .err e

/-- transform_error(f): on an Error wraps f applied to the error into a
new Error result; on a Value rebuilds result<T, G> from the existing
value. -/
def result.transform_error (f : E → G) : result T E → result T G
  | .val v => .val v
  | .err e => .err (f e)

/-- The void specialization result<void, E> (result.hpp line 921): the
Value state carries no data. ok embeds (has_value_ = true); err embeds
(has_value_ = false, err_ = e). -/
inductive vresult (E : Type) where
  | ok : vresult E
  | err : E → vresult E
deriving DecidableEq

/-- has_value() on result<void, E>. -/
def vresult.hasValue : vresult E → Bool
  | .ok => true
  | .err _ => false

/-- value() on result<void, E>: throws bad_result_access carrying the
stored error when in the Error state, otherwise returns normally. The
exception channel is embedded as the error side of Except. -/
def vresult.value : vresult E → Except E Unit
  | .ok => .ok ()
  | .err e => .error e

/-- emplace() on result<void, E>: if in the Error state, destroys the
error payload and sets the discriminant; otherwise does nothing. The
member is noexcept and total. -/
def vresult.emplace : vresult E → vresult E
  | .ok => .ok
  | .err _ => .ok

/-- operator==(result<T, E>, result<T2, E2>) (result.hpp line 902):
differing discriminants compare unequal; two Values compare their values;
two Errors compare their errors. Payload-level operator== is a
parameter. -/
def result.beq (eqT : T → T2 → Bool) (eqE : E → E2 → Bool) :
    result T E → result T2 E2 → Bool
  | .val v, .val w => eqT v w
  | .val _, .err _ => false
  | .err _, .val _ => false
  | .err e, .err f => eqE e f

/-- operator==(result<T, E>, T2) (result.hpp line 909): true iff the
result holds a value equal to the operand. -/
def result.beqValue (eqT : T → T2 → Bool) : result T E → T2 → Bool
  | .val v, u => eqT v u
  | .err _, _ => false

/-- operator==(result<T, E>, failure<E2>) (result.hpp line 914): true iff
the result holds an error equal to the error of the wrapper. -/
def result.beqFailure (eqE : E → E2 → Bool) : result T E → failure E2 → Bool
  | .val _, _ => false
  | .err e, f => eqE e f.error

/-- operator==(result<void, E>, result<T2, E2>) (result.hpp line 1263):
differing discriminants compare unequal; two Values compare equal without
inspecting any payload; two Errors compare their errors. -/
def vresult.beq (eqE : E → E2 → Bool) : vresult E → vresult E2 → Bool
  | .ok, .ok => true
  | .ok, .err _ => false
  | .err _, .ok => false
  | .err e, .err f => eqE e f

/-- operator==(result<void, E>, failure<E2>) (result.hpp line 1272). -/
def vresult.beqFailure (eqE : E → E2 → Bool) : vresult E → failure E2 → Bool
  | .ok, _ => false
  | .err e, f => eqE e f.error

/-- swap on result<T, E> (result.hpp line 631): same-state pairs swap
payload-to-payload; cross-state pairs relocate the payloads across and
exchange the discriminants (the Error-first case delegates to the
mirrored call other.swap(*this)). Embedded on the success path. -/
def result.swap : result T E → result T E → result T E × result T E
  | .val v, .val w => (.val w, .val v)
  | .val v, .err e => (.err e, .val v)
  | .err e, .val w => (.val w, .err e)
  | .err e, .err f => (.err f, .err e)

/-- swap on result<void, E> (result.hpp line 1011): two Values do
nothing; cross-state pairs relocate the error across and exchange the
discriminants; two Errors swap payload-to-payload. -/
def vresult.swap : vresult E → vresult E → vresult E × vresult E
  | .ok, .ok => (.ok, .ok)
  | .ok, .err e => (.err e, .ok)
  | .err e, .ok => (.ok, .err e)
  | .err e, .err f => (.err f, .err e)

/-- Raw object states of result_storage<T, E>, including the
exception-unsafe intermediate ones: dead b is an object whose payload has
been destroyed while its discriminant still reads b. -/
inductive storage_state (T E : Type) where
  | val : T → storage_state T E
  | err : E → storage_state T E
  | dead : Bool → storage_state T E
deriving DecidableEq

/-- The discriminant has_value_ of a raw storage state. -/
def storage_state.hasValue_ : storage_state T E → Bool
  | .val _ => true
  | .err _ => false
  | .dead b => b

/-- A well-formed result viewed as a raw storage state. -/
def result.toState : result T E → storage_state T E
  | .val v => .val v
  | .err e => .err e

/-- Copy assignment of result_storage<T, E> (result.hpp line 227), the
manually sequenced overload. The flags nothrowT and nothrowE embed the
if-constexpr dispatch on is_nothrow_copy_constructible; copyT and copyE
embed the copy constructors of the payloads (Except.error embeds a
throw); assignT and assignE embed the payload copy-assignment operators.
A returned Except.error carries the state the receiver is left in when
the exception propagates out of the operator. Branches follow the source:
same-state assigns payload to payload; Value receiving Error either
destroys val_ then constructs err_ in place (nothrow case) or builds the
temporary E tmp first and only then destroys val_ (throw here leaves the
receiver untouched); Error receiving Value destroys err_ first in both
subcases, so a throwing T construction leaves the receiver dead with
discriminant false. -/
def copyAssign (nothrowT nothrowE : Bool)
    (copyT : T → Except Unit T) (copyE : E → Except Unit E)
    (assignT : T → T → T) (assignE : E → E → E) :
    result T E → result T E → Except (storage_state T E) (result T E)
  | .val v, .val w => .ok (.val (assignT v w))
  | .val v, .err e =>
      if nothrowE then
        match copyE e with
        | .ok e2 => .ok (.err e2)
        | .error _ => .error (.dead true)
      else
        match copyE e with
        | .error _ => .error (.val v)
        | .ok e2 => .ok (.err e2)
  | .err _, .val w =>
      if nothrowT then
        match copyT w with
        | .ok v2 => .ok (.val v2)
        | .error _ => .error (.dead false)
      else
        match copyT w with
        | .error _ => .error (.dead false)
        | .ok v2 => .ok (.val v2)
  | .err e, .err f => .ok (.err (assignE e f))

/-- Move assignment of result_storage<T, E> (result.hpp line 278): the
same four-case state machine as the copy overload, with the move
constructors and move-assignment operators of the payloads in place of
the copy ones. The Error-receiving-Value case again destroys err_ before
the possibly throwing T construction. -/
def moveAssign (nothrowT nothrowE : Bool)
    (moveT : T → Except Unit T) (moveE : E → Except Unit E)
    (massignT : T → T → T) (massignE : E → E → E) :
    result T E → result T E → Except (storage_state T E) (result T E)
  | .val v, .val w => .ok (.val (massignT v w))
  | .val v, .err e =>
      if nothrowE then
        match moveE e with
        | .ok e2 => .ok (.err e2)
        | .error _ => .error (.dead true)
      else
        match moveE e with
        | .error _ => .error (.val v)
        | .ok e2 => .ok (.err e2)
  | .err _, .val w =>
      if nothrowT then
        match moveT w with
        | .ok v2 => .ok (.val v2)
        | .error _ => .error (.dead false)
      else
        match moveT w with
        | .error _ => .error (.dead false)
        | .ok v2 => .ok (.val v2)
  | .err e, .err f => .ok (.err (massignE e f))

/-- Moved-from residue of a result after an rvalue combinator call: the
live payload has been relocated out (its moved-from state is the
arbitrary functions movT, movE) and the discriminant is untouched. -/
def result.relocated (movT : T → T) (movE : E → E) : result T E → result T E
  | .val v => .val (movT v)
  | .err e => .err (movE e)

/-- Moved-from residue of a result<void, E> after an rvalue combinator
call. -/
def vresult.relocated (movE : E → E) : vresult E → vresult E
  | .ok => .ok
  | .err e => .err (movE e)

/-- and_then on a by-reference receiver: copies out, receiver untouched
(the source overload performs no write to *this). -/
def result.and_then_ref (f : T → result U E) (r : result T E) :
    result U E × result T E :=
  (r.and_then f, r)

/-- or_else on a by-reference receiver. -/
def result.or_else_ref (f : E → result T G) (r : result T E) :
    result T G × result T E :=
  (r.or_else f, r)

/-- transform on a by-reference receiver. -/
def result.transform_ref (f : T → U) (r : result T E) :
    result U E × result T E :=
  (r.transform f, r)

/-- transform_error on a by-reference receiver. -/
def result.transform_error_ref (f : E → G) (r : result T E) :
    result T G × result T E :=
  (r.transform_error f, r)

/-- and_then on an rvalue receiver (result.hpp line 748): the live
payload is moved out (into f on a Value, into the rebuilt failure on an
Error); has_value_ is never written. Returns (output, receiver after). -/
def result.and_then_rv (movT : T → T) (movE : E → E) (f : T → result U E) :
    result T E → result U E × result T E
  | .val v => (f v, .val (movT v))
  | .err e => (.err e, .err (movE e))

/-- or_else on an rvalue receiver (result.hpp line 792). -/
def result.or_else_rv (movT : T → T) (movE : E → E) (f : E → result T G) :
    result T E → result T G × result T E
  | .val v => (.val v, .val (movT v))
  | .err e => (f e, .err (movE e))

/-- transform on an rvalue receiver (result.hpp line 836). -/
def result.transform_rv (movT : T → T) (movE : E → E) (f : T → U) :
    result T E → result U E × result T E
  | .val v => (.val (f v), .val (movT v))
  | .err e => (.err e, .err (movE e))

/-- transform_error on an rvalue receiver (result.hpp line 880). -/
def result.transform_error_rv (movT : T → T) (movE : E → E) (f : E → G) :
    result T E → result T G × result T E
  | .val v => (.val v, .val (movT v))
  | .err e => (.err (f e), .err (movE e))

/-- and_then on result<void, E> (result.hpp line 1087): f takes no
argument and returns a result<U, E>. -/
def vresult.and_then (f : Unit → result U E) : vresult E → result U E
  | .ok => f ()
  | .err e => .err e

/-- or_else on result<void, E> (result.hpp line 1131). -/
def vresult.or_else (f : E → vresult G) : vresult E → vresult G
  | .ok => .ok
  | .err e => f e

/-- transform on result<void, E> (result.hpp line 1175). -/
def vresult.transform (f : Unit → U) : vresult E → result U E
  | .ok => .val (f ())
  | .err e => .err e

/-- transform_error on result<void, E> (result.hpp line 1219). -/
def vresult.transform_error (f : E → G) : vresult E → vresult G
  | .ok => .ok
  | .err e => .err (f e)

/-- and_then on a by-reference result<void, E> receiver. -/
def vresult.and_then_ref (f : Unit → result U E) (r : vresult E) :
    result U E × vresult E :=
  (r.and_then f, r)

/-- or_else on a by-reference result<void, E> receiver. -/
def vresult.or_else_ref (f : E → vresult G) (r : vresult E) :
    vresult G × vresult E :=
  (r.or_else f, r)

/-- transform on a by-reference result<void, E> receiver. -/
def vresult.transform_ref (f : Unit → U) (r : vresult E) :
    result U E × vresult E :=
  (r.transform f, r)

/-- transform_error on a by-reference result<void, E> receiver. -/
def vresult.transform_error_ref (f : E → G) (r : vresult E) :
    vresult G × vresult E :=
  (r.transform_error f, r)

/-- and_then on an rvalue result<void, E> receiver (result.hpp line
1109): the error payload is moved out on the Error branch; has_value_ is
never written. -/
def vresult.and_then_rv (movE : E → E) (f : Unit → result U E) :
    vresult E → result U E × vresult E
  | .ok => (f (), .ok)
  | .err e => (.err e, .err (movE e))

/-- or_else on an rvalue result<void, E> receiver (result.hpp line
1153). -/
def vresult.or_else_rv (movE : E → E) (f : E → vresult G) :
    vresult E → vresult G × vresult E
  | .ok => (.ok, .ok)
  | .err e => (f e, .err (movE e))

/-- transform on an rvalue result<void, E> receiver (result.hpp line
1197). -/
def vresult.transform_rv (movE : E → E) (f : Unit → U) :
    vresult E → result U E × vresult E
  | .ok => (.val (f ()), .ok)
  | .err e => (.err e, .err (movE e))

/-- transform_error on an rvalue result<void, E> receiver (result.hpp
line 1241). -/
def vresult.transform_error_rv (movE : E → E) (f : E → G) :
    vresult E → vresult G × vresult E
  | .ok => (.ok, .ok)
  | .err e => (.err (f e), .err (movE e))

end aio

/-- Claim C2: a result built from a value v reports has_value() true and
value() equal to v; a result built from failure(e) reports has_value()
false and error() equal to e. -/
theorem aio.c2_ctor_roundtrip {T E : Type} :
    (∀ v : T, ((aio.result.ofValue v : aio.result T E)).hasValue = true
        ∧ ((aio.result.ofValue v : aio.result T E)).value? = some v)
    ∧ (∀ e : E, ((aio.result.ofFailure ⟨e⟩ : aio.result T E)).hasValue = false
        ∧ ((aio.result.ofFailure ⟨e⟩ : aio.result T E)).error? = some e) := by
  exact ⟨fun v => ⟨rfl, rfl⟩, fun e => ⟨rfl, rfl⟩⟩

/-- Claim C3: and_then on a Value returns exactly the result of invoking
f on the value; on an Error it returns an Error result of the value type
declared by f, carrying the error of the receiver unchanged, and the
output does not depend on f at all (f is never invoked). -/
theorem aio.c3_and_then_spec {T U E : Type} :
    (∀ (f : T → aio.result U E) (v : T),
        aio.result.and_then f (aio.result.val v) = f v)
    ∧ (∀ (f : T → aio.result U E) (e : E),
        aio.result.and_then f (aio.result.err e) = aio.result.err e)
    ∧ (∀ (f g : T → aio.result U E) (e : E),
        aio.result.and_then f (aio.result.err e)
          = aio.result.and_then g (aio.result.err e)) := by
  exact ⟨fun f v => rfl, fun f e => rfl, fun f g e => rfl⟩

/-- Claim C4: two results are equal iff both hold the Value state with
equal values or both hold the Error state with equal errors; a result
equals a bare value iff it holds the Value state with that value; a
result equals a failure wrapper iff it holds the Error state with the
error of that wrapper; and concretely result(5) == 5 is true,
result(5) == failure(1) is false, and result<void,int>() == failure(1)
is false. -/
theorem aio.c4_equality_spec {T T2 E E2 : Type} :
    (∀ (eqT : T → T2 → Bool) (eqE : E → E2 → Bool)
        (a : aio.result T E) (b : aio.result T2 E2),
        aio.result.beq eqT eqE a b = true ↔
          ((∃ v w, a = .val v ∧ b = .val w ∧ eqT v w = true)
            ∨ (∃ e f, a = .err e ∧ b = .err f ∧ eqE e f = true)))
    ∧ (∀ (eqT : T → T2 → Bool) (r : aio.result T E) (u : T2),
        aio.result.beqValue eqT r u = true ↔ ∃ v, r = .val v ∧ eqT v u = true)
    ∧ (∀ (eqE : E → E2 → Bool) (r : aio.result T E) (f : aio.failure E2),
        aio.result.beqFailure eqE r f = true ↔
          ∃ e, r = .err e ∧ eqE e f.error = true)
    ∧ aio.result.beqValue (fun a b => a == b) (aio.result.val 5 : aio.result Nat Nat) 5 = true
    ∧ aio.result.beqFailure (fun a b => a == b) (aio.result.val 5 : aio.result Nat Nat) ⟨1⟩ = false
    ∧ aio.vresult.beqFailure (fun a b => a == b) (aio.vresult.ok : aio.vresult Int) ⟨1⟩ = false := by
  refine ⟨?_, ?_, ?_, by decide, by decide, rfl⟩
  · intro eqT eqE a b
    cases a <;> cases b <;>
      simp [aio.result.beq]
  · intro eqT r u
    cases r <;> simp [aio.result.beqValue]
  · intro eqE r f
    cases r <;> simp [aio.result.beqFailure]

/-- Claim C5: performing swap twice restores both operands to their
original states, for same-state and cross-state pairs alike, on
result<T, E> and on result<void, E>. -/
theorem aio.c5_swap_involution {T E E2 : Type} :
    (∀ a b : aio.result T E,
        aio.result.swap (aio.result.swap a b).1 (aio.result.swap a b).2 = (a, b))
    ∧ (∀ a b : aio.vresult E2,
        aio.vresult.swap (aio.vresult.swap a b).1 (aio.vresult.swap a b).2 = (a, b)) := by
  constructor
  · intro a b
    cases a <;> cases b <;> rfl
  · intro a b
    cases a <;> cases b <;> rfl

/-- Claim C6: transform composes, and on an Error both sides preserve
the error unchanged. -/
theorem aio.c6_transform_composition {T U V E : Type} :
    (∀ (f : T → U) (g : U → V) (r : aio.result T E),
        aio.result.transform g (aio.result.transform f r)
          = aio.result.transform (fun v => g (f v)) r)
    ∧ (∀ (f : T → U) (e : E),
        aio.result.transform f (aio.result.err e) = aio.result.err e) := by
  constructor
  · intro f g r
    cases r <;> rfl
  · intro f e
    rfl

/-- Claim C7: value() on result<void, E> raises an exception carrying the
stored error exactly when the result is in the Error state, and returns
normally when it is in the Value state. -/
theorem aio.c7_void_value_raises {E : Type} :
    (∀ e : E, aio.vresult.value (aio.vresult.err e) = Except.error e)
    ∧ aio.vresult.value (aio.vresult.ok : aio.vresult E) = Except.ok ()
    ∧ (∀ r : aio.vresult E,
        (∃ e, aio.vresult.value r = Except.error e) ↔ r.hasValue = false) := by
  refine ⟨fun e => rfl, rfl, ?_⟩
  intro r
  cases r <;> simp [aio.vresult.value, aio.vresult.hasValue]

/-- Claim C9: emplace() on result<void, E> is total (never throws) and
always establishes the Value state: an Error receiver has its payload
destroyed and its discriminant flipped, and a Value receiver is left
unchanged. -/
theorem aio.c9_void_emplace {E : Type} :
    (∀ r : aio.vresult E, (aio.vresult.emplace r).hasValue = true)
    ∧ (∀ e : E, aio.vresult.emplace (aio.vresult.err e) = aio.vresult.ok)
    ∧ aio.vresult.emplace (aio.vresult.ok : aio.vresult E) = aio.vresult.ok := by
  refine ⟨?_, fun e => rfl, rfl⟩
  intro r
  cases r <;> rfl

/-- Claim C10: two result<void, E1> and result<void, E2> instances that
both hold the Value state compare equal for every payload comparison
function, i.e. regardless of the error types and without inspecting any
error payload. -/
theorem aio.c10_void_value_equality {E1 E2 : Type} :
    ∀ eqE : E1 → E2 → Bool,
      aio.vresult.beq eqE aio.vresult.ok aio.vresult.ok = true :=
  fun _ => rfl

/-- Claim C1 is false as stated: with a receiver in the Error state, a
source in the Value state, and a possibly-throwing value-payload copy
that throws, the copy assignment destroys the old error payload before
attempting the throwing construction, so the exception propagates with
the receiver in the dead state (discriminant still false, payload gone)
rather than in its pre-assignment state err 5. -/
theorem aio.c1_counterexample :
    aio.copyAssign false false
        (fun _ => (Except.error () : Except Unit Nat))
        (fun e => (Except.ok e : Except Unit Nat))
        (fun _ w => w) (fun _ f => f)
        (aio.result.err 5) (aio.result.val 3)
      = Except.error (aio.storage_state.dead false)
    ∧ (aio.storage_state.dead false : aio.storage_state Nat Nat)
        ≠ (aio.result.err 5 : aio.result Nat Nat).toState := by
  exact ⟨rfl, by decide⟩

/-- Claim C1 (amended): in copy and move assignment with a
possibly-throwing incoming payload construction, a receiver in the Value
state whose incoming Error payload construction throws retains its exact
pre-assignment state (the temporary is built before anything is
destroyed); but a receiver in the Error state whose incoming Value
payload construction throws keeps its discriminant (still Error) while
its old error payload has already been destroyed, so its pre-assignment
payload is not retained. -/
theorem aio.c1_assign_partial_safety {T E : Type}
    (copyT moveT : T → Except Unit T) (copyE moveE : E → Except Unit E)
    (aT maT : T → T → T) (aE maE : E → E → E)
    (v w : T) (e f : E)
    (hcT : copyT w = Except.error ()) (hcE : copyE f = Except.error ())
    (hmT : moveT w = Except.error ()) (hmE : moveE f = Except.error ()) :
    aio.copyAssign false false copyT copyE aT aE (.val v) (.err f)
        = Except.error (.val v)
    ∧ aio.copyAssign false false copyT copyE aT aE (.err e) (.val w)
        = Except.error (.dead false)
    ∧ aio.moveAssign false false moveT moveE maT maE (.val v) (.err f)
        = Except.error (.val v)
    ∧ aio.moveAssign false false moveT moveE maT maE (.err e) (.val w)
        = Except.error (.dead false) := by
  refine ⟨?_, ?_, ?_, ?_⟩ <;>
    simp [aio.copyAssign, aio.moveAssign, hcT, hcE, hmT, hmE]

/-- Witness for the amended C1 at concrete Nat payloads with
constructors that always throw. -/
theorem aio.c1_assign_partial_safety_witness :
    aio.copyAssign false false
        (fun _ => (Except.error () : Except Unit Nat))
        (fun _ => (Except.error () : Except Unit Nat))
        (fun _ w => w) (fun _ x => x) (.val 1) (.err 4)
      = Except.error (.val 1)
    ∧ aio.copyAssign false false
        (fun _ => (Except.error () : Except Unit Nat))
        (fun _ => (Except.error () : Except Unit Nat))
        (fun _ w => w) (fun _ x => x) (.err 3) (.val 2)
      = Except.error (.dead false)
    ∧ aio.moveAssign false false
        (fun _ => (Except.error () : Except Unit Nat))
        (fun _ => (Except.error () : Except Unit Nat))
        (fun _ w => w) (fun _ x => x) (.val 1) (.err 4)
      = Except.error (.val 1)
    ∧ aio.moveAssign false false
        (fun _ => (Except.error () : Except Unit Nat))
        (fun _ => (Except.error () : Except Unit Nat))
        (fun _ w => w) (fun _ x => x) (.err 3) (.val 2)
      = Except.error (.dead false) :=
  aio.c1_assign_partial_safety
    (fun _ => Except.error ()) (fun _ => Except.error ())
    (fun _ => Except.error ()) (fun _ => Except.error ())
    (fun _ w => w) (fun _ w => w) (fun _ x => x) (fun _ x => x)
    1 2 3 4 rfl rfl rfl rfl

/-- Claim C8: every overload of the four combinators leaves the
discriminant of the receiver unchanged: by-reference overloads perform no
write to the receiver, and rvalue overloads only relocate the live
payload out, for any moved-from residue. -/
theorem aio.c8_combinators_preserve_discriminant {T U E G : Type} :
    (∀ (f : T → aio.result U E) (r : aio.result T E),
        (aio.result.and_then_ref f r).2.hasValue = r.hasValue)
    ∧ (∀ (f : E → aio.result T G) (r : aio.result T E),
        (aio.result.or_else_ref f r).2.hasValue = r.hasValue)
    ∧ (∀ (f : T → U) (r : aio.result T E),
        (aio.result.transform_ref f r).2.hasValue = r.hasValue)
    ∧ (∀ (f : E → G) (r : aio.result T E),
        (aio.result.transform_error_ref f r).2.hasValue = r.hasValue)
    ∧ (∀ (movT : T → T) (movE : E → E) (f : T → aio.result U E)
          (r : aio.result T E),
        (aio.result.and_then_rv movT movE f r).2.hasValue = r.hasValue)
    ∧ (∀ (movT : T → T) (movE : E → E) (f : E → aio.result T G)
          (r : aio.result T E),
        (aio.result.or_else_rv movT movE f r).2.hasValue = r.hasValue)
    ∧ (∀ (movT : T → T) (movE : E → E) (f : T → U) (r : aio.result T E),
        (aio.result.transform_rv movT movE f r).2.hasValue = r.hasValue)
    ∧ (∀ (movT : T → T) (movE : E → E) (f : E → G) (r : aio.result T E),
        (aio.result.transform_error_rv movT movE f r).2.hasValue = r.hasValue)
    ∧ (∀ (f : Unit → aio.result U E) (r : aio.vresult E),
        (aio.vresult.and_then_ref f r).2.hasValue = r.hasValue)
    ∧ (∀ (f : E → aio.vresult G) (r : aio.vresult E),
        (aio.vresult.or_else_ref f r).2.hasValue = r.hasValue)
    ∧ (∀ (f : Unit → U) (r : aio.vresult E),
        (aio.vresult.transform_ref f r).2.hasValue = r.hasValue)
    ∧ (∀ (f : E → G) (r : aio.vresult E),
        (aio.vresult.transform_error_ref f r).2.hasValue = r.hasValue)
    ∧ (∀ (movE : E → E) (f : Unit → aio.result U E) (r : aio.vresult E),
        (aio.vresult.and_then_rv movE f r).2.hasValue = r.hasValue)
    ∧ (∀ (movE : E → E) (f : E → aio.vresult G) (r : aio.vresult E),
        (aio.vresult.or_else_rv movE f r).2.hasValue = r.hasValue)
    ∧ (∀ (movE : E → E) (f : Unit → U) (r : aio.vresult E),
        (aio.vresult.transform_rv movE f r).2.hasValue = r.hasValue)
    ∧ (∀ (movE : E → E) (f : E → G) (r : aio.vresult E),
        (aio.vresult.transform_error_rv movE f r).2.hasValue = r.hasValue) := by
  refine ⟨?_, ?_, ?_, ?_, ?_, ?_, ?_, ?_, ?_, ?_, ?_, ?_, ?_, ?_, ?_, ?_⟩ <;>
    · intros
      rename_i r
      cases r <;> rfl
